import Mathlib

/-!
Shallow embedding of `src/health-tips.js` (function `generatePersonalTips`,
the TipEngine / `deriveTips` of the specification).

JavaScript numbers are modelled as exact rationals plus an explicit NaN
(`JsNum`); log-entry field values as `JsValue` (absent/undefined, number,
string, boolean), since the source applies JS truthiness and `parseFloat`
to them.  The model covers the decimal values the program manipulates;
binary-float rounding artefacts are outside its scope, as are `parseFloat`
exponents / hex forms, which no claim exercises.
-/

/-- A JavaScript number: either NaN or an exact rational value. -/
inductive JsNum where
  | nan : JsNum
  | val : Rat → JsNum
deriving DecidableEq

/-- A value stored in a log-entry field, as it can arrive from JSON:
absent (`undefined`, covering JSON null as well, which behaves identically
in every operation the source applies), a number, a string, or a boolean. -/
inductive JsValue where
  | undefined : JsValue
  | num : Rat → JsValue
  | str : String → JsValue
  | boolean : Bool → JsValue
deriving DecidableEq

/-- One tip object as built by the source: `{type, icon, title, body}`. -/
structure Tip where
  type : String
  icon : String
  title : String
  body : String
deriving DecidableEq

/-- One health-log entry; the fields `generatePersonalTips` reads. -/
structure LogEntry where
  bmi : JsValue
  sleepHours : JsValue
  heartRate : JsValue
  cycleTracking : JsValue
  cycleLength : JsValue
deriving DecidableEq

/-- JS truthiness of a `JsValue` (`if (x)`): undefined/null are falsy,
a number is truthy iff nonzero, a string iff non-empty, a boolean iff true. -/
def truthy : JsValue → Bool
  | .undefined => false
  | .num q => decide (q ≠ 0)
  | .str s => decide (s ≠ "")
  | .boolean b => b

/-- JS `+` on numbers: NaN absorbs. -/
def JsNum.add : JsNum → JsNum → JsNum
  | .val a, .val b => .val (a + b)
  | _, _ => .nan

/-- JS `/` by a positive count (the source guards the count). -/
def JsNum.divNat : JsNum → Nat → JsNum
  | .val a, n => .val (a / (n : Rat))
  | .nan, _ => .nan

/-- `Math.round`: nearest integer, halves toward positive infinity; NaN maps to NaN. -/
def JsNum.round : JsNum → JsNum
  | .nan => .nan
  | .val q => .val ((Rat.floor (q + 1/2) : Int) : Rat)

/-- JS `<` against a constant: false when NaN. -/
def JsNum.ltB : JsNum → Rat → Bool
  | .nan, _ => false
  | .val q, c => decide (q < c)

/-- JS `<=` against a constant: false when NaN. -/
def JsNum.leB : JsNum → Rat → Bool
  | .nan, _ => false
  | .val q, c => decide (q ≤ c)

/-- JS `>=` against a constant: false when NaN. -/
def JsNum.geB : JsNum → Rat → Bool
  | .nan, _ => false
  | .val q, c => decide (c ≤ q)

/-- JS `>` against a constant: false when NaN. -/
def JsNum.gtB : JsNum → Rat → Bool
  | .nan, _ => false
  | .val q, c => decide (c < q)

/-- Is a character a decimal digit. -/
def isDigitCh (c : Char) : Bool := decide ('0' ≤ c) && decide (c ≤ '9')

/-- Numeric value of a digit character. -/
def digitVal (c : Char) : Nat := c.toNat - '0'.toNat

/-- Is a character JS whitespace (the forms relevant here). -/
def isWsCh (c : Char) : Bool := c = ' ' || c = '\t' || c = '\n' || c = '\r'

/-- Read a maximal run of digits: accumulated value, number of digits, rest. -/
def readDigits (acc cnt : Nat) : List Char → Nat × Nat × List Char
  | [] => (acc, cnt, [])
  | c :: cs =>
    if isDigitCh c then readDigits (acc * 10 + digitVal c) (cnt + 1) cs
    else (acc, cnt, c :: cs)

/-- Parse an optional sign, integer digits, and an optional fractional part
from the front of a character list; `none` when no digit is found.
(Exponent and Infinity forms are outside the model.) -/
def parseNumPart (cs : List Char) : Option (Rat × List Char) :=
  let signRes : Rat × List Char :=
    match cs with
    | '-' :: r => (-1, r)
    | '+' :: r => (1, r)
    | _ => (1, cs)
  let sgn := signRes.1
  let body := signRes.2
  let ir := readDigits 0 0 body
  match ir.2.2 with
  | '.' :: r =>
    let fr := readDigits 0 0 r
    if ir.2.1 = 0 ∧ fr.2.1 = 0 then none
    else some (sgn * ((ir.1 : Rat) + (fr.1 : Rat) / ((10 : Rat) ^ fr.2.1)), fr.2.2)
  | rest =>
    if ir.2.1 = 0 then none else some (sgn * (ir.1 : Rat), rest)

/-- JS `parseFloat` on a string: skip leading whitespace, parse the longest
numeric front, NaN when none exists. -/
def parseFloatStr (s : String) : JsNum :=
  match parseNumPart (s.toList.dropWhile isWsCh) with
  | some r => .val r.1
  | none => .nan

/-- JS `parseFloat` applied to a field value (the source calls it on
`sleepHours`, `heartRate` and `bmi`).  On a number it is the number itself;
booleans and absent values parse to NaN. -/
def parseFloatVal : JsValue → JsNum
  | .num q => .val q
  | .str s => parseFloatStr s
  | .boolean _ => .nan
  | .undefined => .nan

/-- JS `ToNumber`, used by the relational operators on `cycleLength`:
the empty / all-whitespace string is 0, a fully numeric string is its value,
other strings are NaN; booleans coerce to 0/1; undefined to NaN. -/
def toNumber : JsValue → JsNum
  | .undefined => .nan
  | .num q => .val q
  | .boolean b => .val (if b then 1 else 0)
  | .str s =>
    let cs := s.toList.dropWhile isWsCh
    if cs.isEmpty then .val 0
    else
      match parseNumPart cs with
      | some r => if (r.2.dropWhile isWsCh).isEmpty then .val r.1 else .nan
      | none => .nan

/-- JS `<` between a field value and a numeric constant. -/
def jsValLtB (v : JsValue) (c : Rat) : Bool := (toNumber v).ltB c

/-- JS `>` between a field value and a numeric constant. -/
def jsValGtB (v : JsValue) (c : Rat) : Bool := (toNumber v).gtB c

/-- Decimal digits of a rational in `[0,1)`, fuel-bounded (the values the
program produces have terminating decimal expansions). -/
def fracDigits : Nat → Rat → String
  | 0, _ => ""
  | fuel + 1, q =>
    if q = 0 then ""
    else
      let q10 := q * 10
      let d := (Rat.floor q10).toNat
      toString d ++ fracDigits fuel (q10 - (d : Rat))

/-- JS number-to-string for the values interpolated into tip bodies:
sign, integer part, and a fractional part only when nonzero. -/
def ratToString (q : Rat) : String :=
  let s := if q < 0 then "-" else ""
  let a := if q < 0 then -q else q
  let ip := (Rat.floor a).toNat
  let fp := a - ((Rat.floor a : Int) : Rat)
  s ++ toString ip ++ (if fp = 0 then "" else "." ++ fracDigits 40 fp)

/-- JS string coercion of a number, as used when concatenating a number onto a string. -/
def jsNumToString : JsNum → String
  | .nan => "NaN"
  | .val q => ratToString q

/-- JS string coercion of a raw field value (used on `cycleLength`). -/
def jsValueToString : JsValue → String
  | .undefined => "undefined"
  | .num q => ratToString q
  | .str s => s
  | .boolean b => if b then "true" else "false"

/-- JS `Number.prototype.toFixed(1)`: sign split, then round the magnitude
to tenths with halves up; "NaN" for NaN. -/
def toFixed1 : JsNum → String
  | .nan => "NaN"
  | .val q =>
    let s := if q < 0 then "-" else ""
    let a := if q < 0 then -q else q
    let n := (Rat.floor (a * 10 + 1/2)).toNat
    s ++ toString (n / 10) ++ "." ++ toString (n % 10)

/-- Does a character list start with another (needle second). -/
def startsWithL : List Char → List Char → Bool
  | _, [] => true
  | [], _ :: _ => false
  | a :: as, b :: bs => a = b && startsWithL as bs

/-- Does a character list contain another as a contiguous run (needle second). -/
def containsSub : List Char → List Char → Bool
  | [], n => startsWithL [] n
  | c :: t, n => startsWithL (c :: t) n || containsSub t n

/-- Does string `hay` contain string `needle` as a substring. -/
def strContains (hay needle : String) : Bool := containsSub hay.toList needle.toList

/-- BMI tip, underweight branch (`bmi < 18.5`). -/
def bmiUnderTip (bmi : JsNum) : Tip :=
  { type := "warning", icon := "🍎", title := "Nutrition Power-Up Needed!",
    body := "Your BMI (" ++ jsNumToString bmi ++ ") shows you might be underweight. Try adding more nutrient-rich foods to your daily rations — think nuts, avocados, whole grains, and lean proteins. Small, frequent meals can help you gain healthy weight. Consider consulting a healer (doctor) for a personalised nutrition quest!" }

/-- BMI tip, healthy branch (`18.5 <= bmi < 25`). -/
def bmiGoodTip (bmi : JsNum) : Tip :=
  { type := "good", icon := "🏆", title := "BMI — Perfectly Balanced!",
    body := "Amazing work, hero! Your BMI (" ++ jsNumToString bmi ++ ") is in the healthy range. Keep up your current eating and exercise habits to maintain this awesome stat. You\x27ve unlocked the \"Balance Master\" achievement in our hearts!" }

/-- BMI tip, overweight branch (`25 <= bmi < 30`). -/
def bmiOverTip (bmi : JsNum) : Tip :=
  { type := "warning", icon := "🏃", title := "Training Montage Recommended!",
    body := "Your BMI (" ++ jsNumToString bmi ++ ") is slightly above the healthy range. Time for a training montage! Try adding 30 minutes of movement to your daily routine — walking, swimming, cycling, or dancing all count. Small changes to portion sizes can also make a big difference on this quest." }

/-- BMI tip, final else branch (obese; also reached by NaN). -/
def bmiObeseTip (bmi : JsNum) : Tip :=
  { type := "alert", icon := "⚠️", title := "Critical Quest: Weight Management",
    body := "Your BMI (" ++ jsNumToString bmi ++ ") is in the obese range. This is a tough boss battle, but you can win! Start with small goals — even a 5% weight reduction brings huge health bonuses. Please consider visiting a healer (doctor) who can create a personalised strategy for your journey." }

/-- Sleep tip, severe branch (`avgSleep < 6`). -/
def sleepAlertTip (a : JsNum) : Tip :=
  { type := "alert", icon := "😴", title := "Critical! Sleep HP is Low!",
    body := "You\x27re averaging only " ++ toFixed1 a ++ " hours of sleep. Your character needs 7-9 hours to fully regenerate! Poor sleep weakens your immune defence, slows down XP gain, and makes boss fights (daily challenges) much harder. Try setting a \"lights out\" alarm 8 hours before you need to wake up." }

/-- Sleep tip, slightly-under branch (`6 <= avgSleep < 7`). -/
def sleepWarnTip (a : JsNum) : Tip :=
  { type := "warning", icon := "🛌", title := "Sleep Buff Almost There!",
    body := "You\x27re getting " ++ toFixed1 a ++ " hours on average — close to the recommended 7-9 hours! Try going to bed just 30 minutes earlier. Avoid screen time (the blue light debuff!) before bed, and keep your sleeping chamber cool and dark for maximum rest bonus." }

/-- Sleep tip, in-range branch (`7 <= avgSleep <= 9`). -/
def sleepGoodTip (a : JsNum) : Tip :=
  { type := "good", icon := "✨", title := "Sleep Master Achievement!",
    body := "Excellent! You\x27re averaging " ++ toFixed1 a ++ " hours of sleep — right in the sweet spot! Quality rest gives you bonus HP regeneration, better focus stats, and stronger immune defence. Keep this up, champion!" }

/-- Sleep tip, final else branch (oversleep; also reached by NaN). -/
def sleepOverTip (a : JsNum) : Tip :=
  { type := "warning", icon := "⏰", title := "Oversleep Warning!",
    body := "You\x27re averaging " ++ toFixed1 a ++ " hours — that\x27s more than the recommended 7-9 hours. Too much sleep can actually lower your energy stats! If you\x27re feeling constantly tired despite long rest, consider checking with a healer, as it might signal an underlying debuff." }

/-- Heart-rate tip, low branch (rounded `hr < 60`). -/
def hrInfoTip (hr : JsNum) : Tip :=
  { type := "info", icon := "💓", title := "Low Resting Heart Rate",
    body := "Your average heart rate is " ++ jsNumToString hr ++ " bpm. If you\x27re athletic, this could be a sign of great cardiovascular fitness — an S-tier passive ability! However, if you\x27re not very active or feel dizzy/tired, it\x27s worth mentioning to your healer (doctor)." }

/-- Heart-rate tip, normal branch (rounded `60 <= hr <= 100`). -/
def hrGoodTip (hr : JsNum) : Tip :=
  { type := "good", icon := "💚", title := "Heart Rate — Optimal Zone!",
    body := "Your average heart rate of " ++ jsNumToString hr ++ " bpm is in the normal resting range (60-100 bpm). Your heart is performing well! Regular cardio exercise (the \"Endurance Training\" side quest) can help keep it even stronger." }

/-- Heart-rate tip, final else branch (high; also reached by NaN). -/
def hrAlertTip (hr : JsNum) : Tip :=
  { type := "alert", icon := "❤️‍🔥", title := "Heart Rate Running High!",
    body := "Your average heart rate is " ++ jsNumToString hr ++ " bpm, which is above the normal resting range. Stress, caffeine, and lack of exercise can cause this. Try deep breathing exercises (the \"Meditation\" skill), reduce caffeine potions, and add light exercise to your daily routine. If it stays high, please visit a healer!" }

/-- Cycle tip, tracking-active (emitted whenever `cycleTracking` is truthy). -/
def cycleTrackTip : Tip :=
  { type := "info", icon := "🌸", title := "Cycle Tracking Active!",
    body := "Great job tracking your cycle! Regular tracking helps you understand your body\x27s patterns and predict changes in energy, mood, and physical performance. During your period, your iron levels may drop — combat this with iron-rich foods like spinach, red meat, or fortified cereals (HP restoration items!)." }

/-- Cycle-length warning tip, interpolating the raw field value. -/
def cycleLenTip (v : JsValue) : Tip :=
  { type := "warning", icon := "📊", title := "Cycle Length — Worth Checking",
    body := "Your recorded cycle length of " ++ jsValueToString v ++ " days is outside the typical 21-35 day range. This isn\x27t always a problem (everyone\x27s different!), but if it\x27s consistently irregular, it\x27s a good idea to chat with a healer (doctor) about it. They can check for any hidden debuffs." }

/-- Consistency tip, interpolating the entry count. -/
def streakTip (n : Nat) : Tip :=
  { type := "good", icon := "🔥", title := "Streak Bonus Active!",
    body := "You\x27ve logged " ++ toString n ++ " quests so far — consistency is the most powerful buff in the game! Regular tracking helps you spot trends, catch problems early, and see your progress over time. Keep logging to unlock more achievements!" }

/-- The BMI block of `generatePersonalTips`:
gate `latest.bmi && latest.bmi !== "--"`, then the four-way threshold chain
applied to `parseFloat(latest.bmi)`. -/
def bmiSection (latest : LogEntry) : List Tip :=
  if truthy latest.bmi = true ∧ latest.bmi ≠ JsValue.str "--" then
    let bmi := parseFloatVal latest.bmi
    if bmi.ltB 18.5 then [bmiUnderTip bmi]
    else if bmi.geB 18.5 && bmi.ltB 25 then [bmiGoodTip bmi]
    else if bmi.geB 25 && bmi.ltB 30 then [bmiOverTip bmi]
    else [bmiObeseTip bmi]
  else []

/-- The sleep block: gate `avgSleep !== null`, then the four-way chain. -/
def sleepSection (avgSleep : Option JsNum) : List Tip :=
  match avgSleep with
  | none => []
  | some a =>
    if a.ltB 6 then [sleepAlertTip a]
    else if a.ltB 7 then [sleepWarnTip a]
    else if a.leB 9 then [sleepGoodTip a]
    else [sleepOverTip a]

/-- The heart-rate block: gate `avgHR !== null`, round, then the three-way chain. -/
def hrSection (avgHR : Option JsNum) : List Tip :=
  match avgHR with
  | none => []
  | some a =>
    let hr := a.round
    if hr.ltB 60 then [hrInfoTip hr]
    else if hr.leB 100 then [hrGoodTip hr]
    else [hrAlertTip hr]

/-- The cycle block: gate `latest.cycleTracking` (truthiness), emit the
tracking tip, and additionally the length warning when
`latest.cycleLength && (latest.cycleLength < 21 || latest.cycleLength > 35)`. -/
def cycleSection (latest : LogEntry) : List Tip :=
  if truthy latest.cycleTracking then
    cycleTrackTip ::
      (if truthy latest.cycleLength
          && (jsValLtB latest.cycleLength 21 || jsValGtB latest.cycleLength 35) then
        [cycleLenTip latest.cycleLength]
      else [])
  else []

/-- The consistency block: `questLog.length >= 3`. -/
def consSection (questLog : List LogEntry) : List Tip :=
  if 3 ≤ questLog.length then [streakTip questLog.length] else []

/-- Accumulator of the single summing loop of the source. -/
structure Stats where
  totalSleep : JsNum
  sleepCount : Nat
  totalHR : JsNum
  hrCount : Nat
deriving DecidableEq

/-- One iteration of the summing loop: add `parseFloat(sleepHours)` when the
field is truthy, likewise for `heartRate`. -/
def stepStats (s : Stats) (e : LogEntry) : Stats :=
  let s1 :=
    if truthy e.sleepHours then
      { s with totalSleep := s.totalSleep.add (parseFloatVal e.sleepHours),
               sleepCount := s.sleepCount + 1 }
    else s
  if truthy e.heartRate then
    { s1 with totalHR := s1.totalHR.add (parseFloatVal e.heartRate),
              hrCount := s1.hrCount + 1 }
  else s1

/-- The summing loop over the whole log. -/
def computeStats (l : List LogEntry) : Stats := l.foldl stepStats ⟨.val 0, 0, .val 0, 0⟩

/-- An entry with every field absent (only used as an unreachable default
for `getLastD`; the engine reads the last entry only when the log is non-empty). -/
def defaultEntry : LogEntry := ⟨.undefined, .undefined, .undefined, .undefined, .undefined⟩

/-- `questLog[questLog.length - 1]` for a non-empty log. -/
def lastEntry (l : List LogEntry) : LogEntry := l.getLastD defaultEntry

/-- `avgSleep = sleepCount > 0 ? totalSleep / sleepCount : null`. -/
def avgSleepOf (l : List LogEntry) : Option JsNum :=
  let st := computeStats l
  if 0 < st.sleepCount then some (st.totalSleep.divNat st.sleepCount) else none

/-- `avgHR = hrCount > 0 ? totalHR / hrCount : null`. -/
def avgHROf (l : List LogEntry) : Option JsNum :=
  let st := computeStats l
  if 0 < st.hrCount then some (st.totalHR.divNat st.hrCount) else none

/-- The TipEngine `deriveTips`: `generatePersonalTips` of `src/health-tips.js`.
Empty log short-circuits to no tips; otherwise the five blocks push tips in
source order: BMI, sleep, heart rate, cycle, consistency. -/
def generatePersonalTips (questLog : List LogEntry) : List Tip :=
  if questLog.length = 0 then []
  else
    bmiSection (lastEntry questLog) ++ sleepSection (avgSleepOf questLog)
      ++ hrSection (avgHROf questLog) ++ cycleSection (lastEntry questLog)
      ++ consSection questLog

/-- Tip categories, in the fixed emission order of the source; `other` is
never produced by the engine. -/
inductive Cat where
  | bmi | sleep | heart | cycleTrack | cycleLen | cons | other
deriving DecidableEq

/-- Category of a tip, read off its (pairwise distinct) title. -/
def tipCat (t : Tip) : Cat :=
  if t.title = "Nutrition Power-Up Needed!" ∨ t.title = "BMI — Perfectly Balanced!" ∨
     t.title = "Training Montage Recommended!" ∨ t.title = "Critical Quest: Weight Management" then .bmi
  else if t.title = "Critical! Sleep HP is Low!" ∨ t.title = "Sleep Buff Almost There!" ∨
     t.title = "Sleep Master Achievement!" ∨ t.title = "Oversleep Warning!" then .sleep
  else if t.title = "Low Resting Heart Rate" ∨ t.title = "Heart Rate — Optimal Zone!" ∨
     t.title = "Heart Rate Running High!" then .heart
  else if t.title = "Cycle Tracking Active!" then .cycleTrack
  else if t.title = "Cycle Length — Worth Checking" then .cycleLen
  else if t.title = "Streak Bonus Active!" then .cons
  else .other

/-- Is this a BMI-category tip. -/
def isBmiTipB (t : Tip) : Bool := tipCat t == Cat.bmi

/-- Is this a sleep-category tip. -/
def isSleepTipB (t : Tip) : Bool := tipCat t == Cat.sleep

/-- Is this a heart-rate-category tip. -/
def isHeartTipB (t : Tip) : Bool := tipCat t == Cat.heart

/-- Is this one of the two cycle-category tips. -/
def isCycleTipB (t : Tip) : Bool := tipCat t == Cat.cycleTrack || tipCat t == Cat.cycleLen

/-- Is this the consistency tip. -/
def isConsTipB (t : Tip) : Bool := tipCat t == Cat.cons

/-- Is the tip type one of the four documented severities. -/
def typeOkB (t : Tip) : Bool :=
  t.type == "good" || t.type == "warning" || t.type == "alert" || t.type == "info"

/-- Is a field value well formed per the data model: absent or a number. -/
def numericOrAbsent : JsValue → Bool
  | .undefined => true
  | .num _ => true
  | _ => false

/-- The `sleepHours` values the summing loop actually accumulates: those that
are numbers and truthy (nonzero). -/
def truthySleepVals (l : List LogEntry) : List Rat :=
  l.filterMap fun e =>
    match e.sleepHours with
    | .num q => if q = 0 then none else some q
    | _ => none

/-- The `heartRate` values the summing loop actually accumulates. -/
def truthyHRVals (l : List LogEntry) : List Rat :=
  l.filterMap fun e =>
    match e.heartRate with
    | .num q => if q = 0 then none else some q
    | _ => none

@[simp] lemma tipCat_bmiUnderTip (b : JsNum) : tipCat (bmiUnderTip b) = Cat.bmi := rfl
@[simp] lemma tipCat_bmiGoodTip (b : JsNum) : tipCat (bmiGoodTip b) = Cat.bmi := rfl
@[simp] lemma tipCat_bmiOverTip (b : JsNum) : tipCat (bmiOverTip b) = Cat.bmi := rfl
@[simp] lemma tipCat_bmiObeseTip (b : JsNum) : tipCat (bmiObeseTip b) = Cat.bmi := rfl
@[simp] lemma tipCat_sleepAlertTip (a : JsNum) : tipCat (sleepAlertTip a) = Cat.sleep := rfl
@[simp] lemma tipCat_sleepWarnTip (a : JsNum) : tipCat (sleepWarnTip a) = Cat.sleep := rfl
@[simp] lemma tipCat_sleepGoodTip (a : JsNum) : tipCat (sleepGoodTip a) = Cat.sleep := rfl
@[simp] lemma tipCat_sleepOverTip (a : JsNum) : tipCat (sleepOverTip a) = Cat.sleep := rfl
@[simp] lemma tipCat_hrInfoTip (a : JsNum) : tipCat (hrInfoTip a) = Cat.heart := rfl
@[simp] lemma tipCat_hrGoodTip (a : JsNum) : tipCat (hrGoodTip a) = Cat.heart := rfl
@[simp] lemma tipCat_hrAlertTip (a : JsNum) : tipCat (hrAlertTip a) = Cat.heart := rfl
@[simp] lemma tipCat_cycleTrackTip : tipCat cycleTrackTip = Cat.cycleTrack := rfl
@[simp] lemma tipCat_cycleLenTip (v : JsValue) : tipCat (cycleLenTip v) = Cat.cycleLen := rfl
@[simp] lemma tipCat_streakTip (n : Nat) : tipCat (streakTip n) = Cat.cons := rfl

/-- Every tip the BMI block emits is a BMI-category tip. -/
lemma bmiSection_cats (e : LogEntry) : ∀ t ∈ bmiSection e, tipCat t = Cat.bmi := by
  intro t ht
  unfold bmiSection at ht
  simp only [] at ht
  split at ht
  · split at ht
    · simp_all
    · split at ht
      · simp_all
      · split at ht <;> simp_all
  · simp at ht

/-- Every tip the sleep block emits is a sleep-category tip. -/
lemma sleepSection_cats (o : Option JsNum) : ∀ t ∈ sleepSection o, tipCat t = Cat.sleep := by
  intro t ht
  unfold sleepSection at ht
  repeat' split at ht
  all_goals simp_all

/-- Every tip the heart-rate block emits is a heart-rate-category tip. -/
lemma hrSection_cats (o : Option JsNum) : ∀ t ∈ hrSection o, tipCat t = Cat.heart := by
  intro t ht
  unfold hrSection at ht
  simp only [] at ht
  split at ht
  · simp at ht
  · split at ht
    · simp_all
    · split at ht <;> simp_all

/-- Every tip the cycle block emits is one of the two cycle categories. -/
lemma cycleSection_cats (e : LogEntry) :
    ∀ t ∈ cycleSection e, tipCat t = Cat.cycleTrack ∨ tipCat t = Cat.cycleLen := by
  intro t ht
  unfold cycleSection at ht
  split at ht
  · rcases List.mem_cons.mp ht with h | h
    · subst h; simp
    · split at h
      · simp at h; subst h; simp
      · simp at h
  · simp at ht

/-- Every tip the consistency block emits is a consistency tip. -/
lemma consSection_cats (l : List LogEntry) : ∀ t ∈ consSection l, tipCat t = Cat.cons := by
  intro t ht
  unfold consSection at ht
  split at ht
  all_goals simp_all

/-- Every tip any block emits carries one of the four documented types. -/
lemma bmiSection_types (e : LogEntry) : ∀ t ∈ bmiSection e, typeOkB t = true := by
  intro t ht
  unfold bmiSection at ht
  simp only [] at ht
  split at ht
  · split at ht
    · simp_all [typeOkB, bmiUnderTip]
    · split at ht
      · simp_all [typeOkB, bmiGoodTip]
      · split at ht <;> simp_all [typeOkB, bmiOverTip, bmiObeseTip]
  · simp at ht

/-- Sleep-block tips carry one of the four documented types. -/
lemma sleepSection_types (o : Option JsNum) : ∀ t ∈ sleepSection o, typeOkB t = true := by
  intro t ht
  unfold sleepSection at ht
  repeat' split at ht
  all_goals simp_all [typeOkB, sleepAlertTip, sleepWarnTip, sleepGoodTip, sleepOverTip]

/-- Heart-rate-block tips carry one of the four documented types. -/
lemma hrSection_types (o : Option JsNum) : ∀ t ∈ hrSection o, typeOkB t = true := by
  intro t ht
  unfold hrSection at ht
  simp only [] at ht
  split at ht
  · simp at ht
  · split at ht
    · simp_all [typeOkB, hrInfoTip]
    · split at ht <;> simp_all [typeOkB, hrGoodTip, hrAlertTip]

/-- Cycle-block tips carry one of the four documented types. -/
lemma cycleSection_types (e : LogEntry) : ∀ t ∈ cycleSection e, typeOkB t = true := by
  intro t ht
  unfold cycleSection at ht
  split at ht
  · rcases List.mem_cons.mp ht with h | h
    · subst h; simp [typeOkB, cycleTrackTip]
    · split at h
      · simp at h; subst h; simp [typeOkB, cycleLenTip]
      · simp at h
  · simp at ht

/-- Consistency-block tips carry one of the four documented types. -/
lemma consSection_types (l : List LogEntry) : ∀ t ∈ consSection l, typeOkB t = true := by
  intro t ht
  unfold consSection at ht
  split at ht <;> simp_all [typeOkB, streakTip]

/-- On a non-empty log the engine is the concatenation of its five blocks. -/
lemma gpt_eq (l : List LogEntry) (h : l ≠ []) :
    generatePersonalTips l
      = bmiSection (lastEntry l) ++ sleepSection (avgSleepOf l)
        ++ hrSection (avgHROf l) ++ cycleSection (lastEntry l) ++ consSection l := by
  unfold generatePersonalTips
  rw [if_neg]
  simpa using h

/-- Filtering drops a list in which the predicate never holds. -/
lemma filter_none (xs : List Tip) (p : Tip → Bool) (h : ∀ t ∈ xs, p t = false) :
    xs.filter p = [] := by
  induction xs with
  | nil => rfl
  | cons a as ih =>
    have ha := h a (by simp)
    simp only [List.filter_cons, ha, Bool.false_eq_true, if_false]
    exact ih fun t ht => h t (by simp [ht])

/-- Filtering keeps a list in which the predicate always holds. -/
lemma filter_all (xs : List Tip) (p : Tip → Bool) (h : ∀ t ∈ xs, p t = true) :
    xs.filter p = xs := by
  induction xs with
  | nil => rfl
  | cons a as ih =>
    have ha := h a (by simp)
    simp only [List.filter_cons, ha, if_true]
    rw [ih fun t ht => h t (by simp [ht])]

/-- The BMI tips of the output are exactly the BMI block. -/
lemma filter_gpt_bmi (l : List LogEntry) (h : l ≠ []) :
    (generatePersonalTips l).filter isBmiTipB = bmiSection (lastEntry l) := by
  rw [gpt_eq l h, List.filter_append, List.filter_append, List.filter_append,
    List.filter_append]
  rw [filter_all _ _ (fun t ht => by simp [isBmiTipB, bmiSection_cats _ t ht]),
    filter_none _ _ (fun t ht => by simp [isBmiTipB, sleepSection_cats _ t ht]),
    filter_none _ _ (fun t ht => by simp [isBmiTipB, hrSection_cats _ t ht]),
    filter_none _ _ (fun t ht => by
      rcases cycleSection_cats _ t ht with hc | hc <;> simp [isBmiTipB, hc]),
    filter_none _ _ (fun t ht => by simp [isBmiTipB, consSection_cats _ t ht])]
  simp

/-- The sleep tips of the output are exactly the sleep block. -/
lemma filter_gpt_sleep (l : List LogEntry) (h : l ≠ []) :
    (generatePersonalTips l).filter isSleepTipB = sleepSection (avgSleepOf l) := by
  rw [gpt_eq l h, List.filter_append, List.filter_append, List.filter_append,
    List.filter_append]
  rw [filter_none _ _ (fun t ht => by simp [isSleepTipB, bmiSection_cats _ t ht]),
    filter_all _ _ (fun t ht => by simp [isSleepTipB, sleepSection_cats _ t ht]),
    filter_none _ _ (fun t ht => by simp [isSleepTipB, hrSection_cats _ t ht]),
    filter_none _ _ (fun t ht => by
      rcases cycleSection_cats _ t ht with hc | hc <;> simp [isSleepTipB, hc]),
    filter_none _ _ (fun t ht => by simp [isSleepTipB, consSection_cats _ t ht])]
  simp

/-- The heart-rate tips of the output are exactly the heart-rate block. -/
lemma filter_gpt_hr (l : List LogEntry) (h : l ≠ []) :
    (generatePersonalTips l).filter isHeartTipB = hrSection (avgHROf l) := by
  rw [gpt_eq l h, List.filter_append, List.filter_append, List.filter_append,
    List.filter_append]
  rw [filter_none _ _ (fun t ht => by simp [isHeartTipB, bmiSection_cats _ t ht]),
    filter_none _ _ (fun t ht => by simp [isHeartTipB, sleepSection_cats _ t ht]),
    filter_all _ _ (fun t ht => by simp [isHeartTipB, hrSection_cats _ t ht]),
    filter_none _ _ (fun t ht => by
      rcases cycleSection_cats _ t ht with hc | hc <;> simp [isHeartTipB, hc]),
    filter_none _ _ (fun t ht => by simp [isHeartTipB, consSection_cats _ t ht])]
  simp

/-- The cycle tips of the output are exactly the cycle block. -/
lemma filter_gpt_cycle (l : List LogEntry) (h : l ≠ []) :
    (generatePersonalTips l).filter isCycleTipB = cycleSection (lastEntry l) := by
  rw [gpt_eq l h, List.filter_append, List.filter_append, List.filter_append,
    List.filter_append]
  rw [filter_none _ _ (fun t ht => by simp [isCycleTipB, bmiSection_cats _ t ht]),
    filter_none _ _ (fun t ht => by simp [isCycleTipB, sleepSection_cats _ t ht]),
    filter_none _ _ (fun t ht => by simp [isCycleTipB, hrSection_cats _ t ht]),
    filter_all _ _ (fun t ht => by
      rcases cycleSection_cats _ t ht with hc | hc <;> simp [isCycleTipB, hc]),
    filter_none _ _ (fun t ht => by simp [isCycleTipB, consSection_cats _ t ht])]
  simp

/-- The consistency tips of the output are exactly the consistency block
(for every log: the empty log has neither). -/
lemma filter_gpt_cons (l : List LogEntry) :
    (generatePersonalTips l).filter isConsTipB = consSection l := by
  by_cases h : l = []
  · subst h; rfl
  rw [gpt_eq l h, List.filter_append, List.filter_append, List.filter_append,
    List.filter_append]
  rw [filter_none _ _ (fun t ht => by simp [isConsTipB, bmiSection_cats _ t ht]),
    filter_none _ _ (fun t ht => by simp [isConsTipB, sleepSection_cats _ t ht]),
    filter_none _ _ (fun t ht => by simp [isConsTipB, hrSection_cats _ t ht]),
    filter_none _ _ (fun t ht => by
      rcases cycleSection_cats _ t ht with hc | hc <;> simp [isConsTipB, hc]),
    filter_all _ _ (fun t ht => by simp [isConsTipB, consSection_cats _ t ht])]
  simp

lemma JsNum.nan_add (x : JsNum) : JsNum.add .nan x = .nan := by cases x <;> rfl

lemma JsNum.add_nan (x : JsNum) : JsNum.add x .nan = .nan := by cases x <;> rfl

lemma stepStats_totalSleep (s : Stats) (e : LogEntry) :
    (stepStats s e).totalSleep
      = if truthy e.sleepHours then s.totalSleep.add (parseFloatVal e.sleepHours)
        else s.totalSleep := by
  unfold stepStats
  simp only []
  split <;> split <;> rfl

lemma stepStats_sleepCount (s : Stats) (e : LogEntry) :
    (stepStats s e).sleepCount
      = if truthy e.sleepHours then s.sleepCount + 1 else s.sleepCount := by
  unfold stepStats
  simp only []
  split <;> split <;> rfl

lemma stepStats_totalHR (s : Stats) (e : LogEntry) :
    (stepStats s e).totalHR
      = if truthy e.heartRate then s.totalHR.add (parseFloatVal e.heartRate)
        else s.totalHR := by
  unfold stepStats
  simp only []
  split <;> split <;> rfl

lemma stepStats_hrCount (s : Stats) (e : LogEntry) :
    (stepStats s e).hrCount
      = if truthy e.heartRate then s.hrCount + 1 else s.hrCount := by
  unfold stepStats
  simp only []
  split <;> split <;> rfl

/-- Under data-model-conforming `sleepHours` fields, the loop accumulates
exactly the truthy numeric values. -/
lemma foldl_sleep_wf :
    ∀ (l : List LogEntry), (∀ e ∈ l, numericOrAbsent e.sleepHours = true) →
      ∀ (s : Stats) (a : Rat), s.totalSleep = JsNum.val a →
        (l.foldl stepStats s).totalSleep = JsNum.val (a + (truthySleepVals l).sum) ∧
        (l.foldl stepStats s).sleepCount = s.sleepCount + (truthySleepVals l).length := by
  intro l
  induction l with
  | nil => intro _ s a ha; simp [truthySleepVals, ha]
  | cons e es ih =>
    intro hwf s a ha
    have hwfe := hwf e (by simp)
    have hwfes : ∀ x ∈ es, numericOrAbsent x.sleepHours = true :=
      fun x hx => hwf x (by simp [hx])
    cases hsl : e.sleepHours with
    | undefined =>
      have htr : truthy e.sleepHours = false := by rw [hsl]; rfl
      have hvals : truthySleepVals (e :: es) = truthySleepVals es := by
        simp [truthySleepVals, List.filterMap_cons, hsl]
      have hstep : (stepStats s e).totalSleep = JsNum.val a := by
        rw [stepStats_totalSleep, htr]; simp [ha]
      have hcnt : (stepStats s e).sleepCount = s.sleepCount := by
        rw [stepStats_sleepCount, htr]; simp
      have := ih hwfes (stepStats s e) a hstep
      simpa [List.foldl_cons, hvals, hcnt] using this
    | num q =>
      by_cases hq : q = 0
      · subst hq
        have htr : truthy e.sleepHours = false := by rw [hsl]; simp [truthy]
        have hvals : truthySleepVals (e :: es) = truthySleepVals es := by
          simp [truthySleepVals, List.filterMap_cons, hsl]
        have hstep : (stepStats s e).totalSleep = JsNum.val a := by
          rw [stepStats_totalSleep, htr]; simp [ha]
        have hcnt : (stepStats s e).sleepCount = s.sleepCount := by
          rw [stepStats_sleepCount, htr]; simp
        have := ih hwfes (stepStats s e) a hstep
        simpa [List.foldl_cons, hvals, hcnt] using this
      · have htr : truthy e.sleepHours = true := by rw [hsl]; simp [truthy, hq]
        have hvals : truthySleepVals (e :: es) = q :: truthySleepVals es := by
          simp [truthySleepVals, List.filterMap_cons, hsl, hq]
        have hstep : (stepStats s e).totalSleep = JsNum.val (a + q) := by
          rw [stepStats_totalSleep, htr, ha, hsl]; rfl
        have hcnt : (stepStats s e).sleepCount = s.sleepCount + 1 := by
          rw [stepStats_sleepCount, htr]; simp
        have hrec := ih hwfes (stepStats s e) (a + q) hstep
        constructor
        · rw [List.foldl_cons, hrec.1, hvals]
          simp [List.sum_cons]
          ring_nf
        · rw [List.foldl_cons, hrec.2, hcnt, hvals]
          simp [List.length_cons]
          omega
    | str v => simp [numericOrAbsent, hsl] at hwfe
    | boolean b => simp [numericOrAbsent, hsl] at hwfe

/-- Under data-model-conforming `heartRate` fields, the loop accumulates
exactly the truthy numeric values. -/
lemma foldl_hr_wf :
    ∀ (l : List LogEntry), (∀ e ∈ l, numericOrAbsent e.heartRate = true) →
      ∀ (s : Stats) (a : Rat), s.totalHR = JsNum.val a →
        (l.foldl stepStats s).totalHR = JsNum.val (a + (truthyHRVals l).sum) ∧
        (l.foldl stepStats s).hrCount = s.hrCount + (truthyHRVals l).length := by
  intro l
  induction l with
  | nil => intro _ s a ha; simp [truthyHRVals, ha]
  | cons e es ih =>
    intro hwf s a ha
    have hwfe := hwf e (by simp)
    have hwfes : ∀ x ∈ es, numericOrAbsent x.heartRate = true :=
      fun x hx => hwf x (by simp [hx])
    cases hsl : e.heartRate with
    | undefined =>
      have htr : truthy e.heartRate = false := by rw [hsl]; rfl
      have hvals : truthyHRVals (e :: es) = truthyHRVals es := by
        simp [truthyHRVals, List.filterMap_cons, hsl]
      have hstep : (stepStats s e).totalHR = JsNum.val a := by
        rw [stepStats_totalHR, htr]; simp [ha]
      have hcnt : (stepStats s e).hrCount = s.hrCount := by
        rw [stepStats_hrCount, htr]; simp
      have := ih hwfes (stepStats s e) a hstep
      simpa [List.foldl_cons, hvals, hcnt] using this
    | num q =>
      by_cases hq : q = 0
      · subst hq
        have htr : truthy e.heartRate = false := by rw [hsl]; simp [truthy]
        have hvals : truthyHRVals (e :: es) = truthyHRVals es := by
          simp [truthyHRVals, List.filterMap_cons, hsl]
        have hstep : (stepStats s e).totalHR = JsNum.val a := by
          rw [stepStats_totalHR, htr]; simp [ha]
        have hcnt : (stepStats s e).hrCount = s.hrCount := by
          rw [stepStats_hrCount, htr]; simp
        have := ih hwfes (stepStats s e) a hstep
        simpa [List.foldl_cons, hvals, hcnt] using this
      · have htr : truthy e.heartRate = true := by rw [hsl]; simp [truthy, hq]
        have hvals : truthyHRVals (e :: es) = q :: truthyHRVals es := by
          simp [truthyHRVals, List.filterMap_cons, hsl, hq]
        have hstep : (stepStats s e).totalHR = JsNum.val (a + q) := by
          rw [stepStats_totalHR, htr, ha, hsl]; rfl
        have hcnt : (stepStats s e).hrCount = s.hrCount + 1 := by
          rw [stepStats_hrCount, htr]; simp
        have hrec := ih hwfes (stepStats s e) (a + q) hstep
        constructor
        · rw [List.foldl_cons, hrec.1, hvals]
          simp [List.sum_cons]
          ring_nf
        · rw [List.foldl_cons, hrec.2, hcnt, hvals]
          simp [List.length_cons]
          omega
    | str v => simp [numericOrAbsent, hsl] at hwfe
    | boolean b => simp [numericOrAbsent, hsl] at hwfe

/-- `avgSleep` under data-model-conforming fields: the arithmetic mean of the
truthy numeric `sleepHours` values, null when there are none. -/
lemma avgSleepOf_wf (l : List LogEntry)
    (hwf : ∀ e ∈ l, numericOrAbsent e.sleepHours = true) :
    avgSleepOf l
      = if truthySleepVals l = [] then none
        else some (JsNum.val
          ((truthySleepVals l).sum / ((truthySleepVals l).length : Rat))) := by
  obtain ⟨h1, h2⟩ := foldl_sleep_wf l hwf ⟨.val 0, 0, .val 0, 0⟩ 0 rfl
  unfold avgSleepOf computeStats
  simp only []
  rw [h1, h2]
  simp only [zero_add, Nat.zero_add]
  by_cases hv : truthySleepVals l = []
  · simp [hv]
  · have hlen : 0 < (truthySleepVals l).length := List.length_pos.mpr hv
    simp [hv, hlen, JsNum.divNat]

/-- `avgHR` under data-model-conforming fields. -/
lemma avgHROf_wf (l : List LogEntry)
    (hwf : ∀ e ∈ l, numericOrAbsent e.heartRate = true) :
    avgHROf l
      = if truthyHRVals l = [] then none
        else some (JsNum.val
          ((truthyHRVals l).sum / ((truthyHRVals l).length : Rat))) := by
  obtain ⟨h1, h2⟩ := foldl_hr_wf l hwf ⟨.val 0, 0, .val 0, 0⟩ 0 rfl
  unfold avgHROf computeStats
  simp only []
  rw [h1, h2]
  simp only [zero_add, Nat.zero_add]
  by_cases hv : truthyHRVals l = []
  · simp [hv]
  · have hlen : 0 < (truthyHRVals l).length := List.length_pos.mpr hv
    simp [hv, hlen, JsNum.divNat]

lemma startsWithL_append (a b : List Char) : startsWithL (a ++ b) a = true := by
  induction a with
  | nil => cases b <;> rfl
  | cons c cs ih => simp [startsWithL, ih]

lemma containsSub_append_left (pre rest n : List Char) (h : containsSub rest n = true) :
    containsSub (pre ++ rest) n = true := by
  induction pre with
  | nil => simpa using h
  | cons c cs ih => simp [containsSub, ih]

lemma containsSub_self_pre (n post : List Char) : containsSub (n ++ post) n = true := by
  cases n with
  | nil =>
    cases post with
    | nil => rfl
    | cons c t => simp [containsSub, startsWithL]
  | cons c t =>
    have h := startsWithL_append (c :: t) post
    simp only [List.cons_append] at h ⊢
    simp [containsSub, h]

/-- A string built by interpolation contains the interpolated value. -/
lemma strContains_interp (pre mid post : String) :
    strContains (pre ++ mid ++ post) mid = true := by
  unfold strContains
  have hl : (pre ++ mid ++ post).toList
      = pre.toList ++ (mid.toList ++ post.toList) := by
    simp [String.toList, String.data_append]
  rw [hl]
  exact containsSub_append_left _ _ _ (containsSub_self_pre _ _)

lemma foldl_sleep_nan :
    ∀ (l : List LogEntry) (s : Stats), s.totalSleep = .nan →
      (l.foldl stepStats s).totalSleep = .nan := by
  intro l
  induction l with
  | nil => intro s h; simpa using h
  | cons e es ih =>
    intro s h
    rw [List.foldl_cons]
    apply ih
    rw [stepStats_totalSleep]
    split
    · rw [h]; exact JsNum.nan_add _
    · exact h

lemma stepStats_sleepCount_mono (s : Stats) (e : LogEntry) :
    s.sleepCount ≤ (stepStats s e).sleepCount := by
  rw [stepStats_sleepCount]; split <;> omega

lemma foldl_sleepCount_mono :
    ∀ (l : List LogEntry) (s : Stats), s.sleepCount ≤ (l.foldl stepStats s).sleepCount := by
  intro l
  induction l with
  | nil => intro s; simp
  | cons e es ih =>
    intro s
    rw [List.foldl_cons]
    exact le_trans (stepStats_sleepCount_mono s e) (ih (stepStats s e))

/-- A truthy `sleepHours` value that parses to NaN poisons the sleep total
and still increments the count. -/
lemma foldl_sleep_bad :
    ∀ (l : List LogEntry) (e : LogEntry), e ∈ l → truthy e.sleepHours = true →
      parseFloatVal e.sleepHours = .nan → ∀ s : Stats,
        (l.foldl stepStats s).totalSleep = .nan ∧
        s.sleepCount < (l.foldl stepStats s).sleepCount := by
  intro l
  induction l with
  | nil => intro e he; simp at he
  | cons a as ih =>
    intro e he ht hp s
    rcases List.mem_cons.mp he with rfl | hmem
    · constructor
      · rw [List.foldl_cons]
        apply foldl_sleep_nan
        rw [stepStats_totalSleep, ht, hp]
        simp [JsNum.add_nan]
      · have h1 : (stepStats s e).sleepCount = s.sleepCount + 1 := by
          rw [stepStats_sleepCount, ht]; simp
        have h2 := foldl_sleepCount_mono as (stepStats s e)
        rw [List.foldl_cons]
        omega
    · have hrec := ih e hmem ht hp (stepStats s a)
      refine ⟨by rw [List.foldl_cons]; exact hrec.1, ?_⟩
      rw [List.foldl_cons]
      exact lt_of_le_of_lt (stepStats_sleepCount_mono s a) hrec.2

/-- With a malformed truthy `sleepHours` somewhere in the log, `avgSleep`
is NaN (not null). -/
lemma avgSleepOf_bad (l : List LogEntry) (e : LogEntry) (he : e ∈ l)
    (ht : truthy e.sleepHours = true) (hp : parseFloatVal e.sleepHours = .nan) :
    avgSleepOf l = some JsNum.nan := by
  obtain ⟨h1, h2⟩ := foldl_sleep_bad l e he ht hp ⟨.val 0, 0, .val 0, 0⟩
  unfold avgSleepOf computeStats
  simp only []
  rw [if_pos h2, h1]
  rfl

@[simp] lemma jsNumToString_val (q : Rat) : jsNumToString (JsNum.val q) = ratToString q := rfl

@[simp] lemma toFixed1_nan : toFixed1 JsNum.nan = "NaN" := rfl

/-- The BMI block is silent when the gate fails (falsy value or sentinel). -/
lemma bmiSection_none (e : LogEntry)
    (h : truthy e.bmi = false ∨ e.bmi = JsValue.str "--") : bmiSection e = [] := by
  unfold bmiSection
  rw [if_neg]
  rintro ⟨h1, h2⟩
  rcases h with h | h
  · rw [h] at h1; exact Bool.false_ne_true h1
  · exact h2 h

/-- On a nonzero numeric BMI, the block emits exactly the bucket tip of the
threshold chain of the specification, embedding the value exactly. -/
lemma bmiSection_val (e : LogEntry) (q : Rat) (hb : e.bmi = JsValue.num q) (hq : q ≠ 0) :
    ∃ t, bmiSection e = [t] ∧
      t.type = (if q < 18.5 then "warning" else if q < 25 then "good"
        else if q < 30 then "warning" else "alert") ∧
      strContains t.body (ratToString q) = true := by
  unfold bmiSection
  rw [if_pos ⟨by rw [hb]; simp [truthy, hq], by rw [hb]; simp⟩]
  have hpf : parseFloatVal e.bmi = JsNum.val q := by rw [hb]; rfl
  rw [hpf]
  by_cases h1 : q < 18.5
  · refine ⟨bmiUnderTip (.val q), ?_, ?_, ?_⟩
    · simp [JsNum.ltB, h1]
    · simp [bmiUnderTip, h1]
    · simp only [bmiUnderTip, jsNumToString_val]
      exact strContains_interp _ _ _
  · by_cases h2 : q < 25
    · refine ⟨bmiGoodTip (.val q), ?_, ?_, ?_⟩
      · simp [JsNum.ltB, JsNum.geB, h1, h2, le_of_not_lt h1]
      · simp [bmiGoodTip, h1, h2]
      · simp only [bmiGoodTip, jsNumToString_val]
        exact strContains_interp _ _ _
    · by_cases h3 : q < 30
      · refine ⟨bmiOverTip (.val q), ?_, ?_, ?_⟩
        · simp [JsNum.ltB, JsNum.geB, h1, h2, h3, le_of_not_lt h2]
        · simp [bmiOverTip, h1, h2, h3]
        · simp only [bmiOverTip, jsNumToString_val]
          exact strContains_interp _ _ _
      · refine ⟨bmiObeseTip (.val q), ?_, ?_, ?_⟩
        · simp [JsNum.ltB, JsNum.geB, h1, h2, h3]
        · simp [bmiObeseTip, h1, h2, h3]
        · simp only [bmiObeseTip, jsNumToString_val]
          exact strContains_interp _ _ _

/-- On a numeric average, the sleep block emits exactly the bucket tip of the
threshold chain of the specification, embedding the rounded average. -/
lemma sleepSection_val (a : Rat) :
    ∃ t, sleepSection (some (JsNum.val a)) = [t] ∧
      t.type = (if a < 6 then "alert" else if a < 7 then "warning"
        else if a ≤ 9 then "good" else "warning") ∧
      strContains t.body (toFixed1 (JsNum.val a)) = true := by
  unfold sleepSection
  by_cases h1 : a < 6
  · refine ⟨sleepAlertTip (.val a), ?_, ?_, ?_⟩
    · simp [JsNum.ltB, h1]
    · simp [sleepAlertTip, h1]
    · simp only [sleepAlertTip]
      exact strContains_interp _ _ _
  · by_cases h2 : a < 7
    · refine ⟨sleepWarnTip (.val a), ?_, ?_, ?_⟩
      · simp [JsNum.ltB, h1, h2]
      · simp [sleepWarnTip, h1, h2]
      · simp only [sleepWarnTip]
        exact strContains_interp _ _ _
    · by_cases h3 : a ≤ 9
      · refine ⟨sleepGoodTip (.val a), ?_, ?_, ?_⟩
        · simp [JsNum.ltB, JsNum.leB, h1, h2, h3]
        · simp [sleepGoodTip, h1, h2, h3]
        · simp only [sleepGoodTip]
          exact strContains_interp _ _ _
      · refine ⟨sleepOverTip (.val a), ?_, ?_, ?_⟩
        · simp [JsNum.ltB, JsNum.leB, h1, h2, h3]
        · simp [sleepOverTip, h1, h2, h3]
        · simp only [sleepOverTip]
          exact strContains_interp _ _ _

/-- On a numeric average, the heart-rate block first rounds and then buckets
the rounded integer, embedding it in the body. -/
lemma hrSection_val (a : Rat) :
    ∃ t, hrSection (some (JsNum.val a)) = [t] ∧
      t.type = (if Rat.floor (a + 1/2) < 60 then "info"
        else if Rat.floor (a + 1/2) ≤ 100 then "good" else "alert") ∧
      strContains t.body (ratToString ((Rat.floor (a + 1/2) : Int) : Rat)) = true := by
  unfold hrSection
  simp only []
  have hround : (JsNum.val a).round = JsNum.val ((Rat.floor (a + 1/2) : Int) : Rat) := rfl
  rw [hround]
  set r : Int := Rat.floor (a + 1/2) with hrdef
  by_cases h1 : r < 60
  · have hc1 : (JsNum.val (r : Rat)).ltB 60 = true := by
      simp only [JsNum.ltB, decide_eq_true_eq]
      exact_mod_cast h1
    refine ⟨hrInfoTip (.val (r : Rat)), ?_, ?_, ?_⟩
    · rw [if_pos hc1]
    · simp only [hrInfoTip]
      rw [if_pos h1]
    · simp only [hrInfoTip, jsNumToString_val]
      exact strContains_interp _ _ _
  · have hc1 : (JsNum.val (r : Rat)).ltB 60 = false := by
      simp only [JsNum.ltB, decide_eq_false_iff_not]
      exact_mod_cast h1
    by_cases h2 : r ≤ 100
    · have hc2 : (JsNum.val (r : Rat)).leB 100 = true := by
        simp only [JsNum.leB, decide_eq_true_eq]
        exact_mod_cast h2
      refine ⟨hrGoodTip (.val (r : Rat)), ?_, ?_, ?_⟩
      · rw [if_neg (by simp [hc1]), if_pos hc2]
      · simp only [hrGoodTip]
        rw [if_neg h1, if_pos h2]
      · simp only [hrGoodTip, jsNumToString_val]
        exact strContains_interp _ _ _
    · have hc2 : (JsNum.val (r : Rat)).leB 100 = false := by
        simp only [JsNum.leB, decide_eq_false_iff_not]
        exact_mod_cast h2
      refine ⟨hrAlertTip (.val (r : Rat)), ?_, ?_, ?_⟩
      · rw [if_neg (by simp [hc1]), if_neg (by simp [hc2])]
      · simp only [hrAlertTip]
        rw [if_neg h1, if_neg h2]
      · simp only [hrAlertTip, jsNumToString_val]
        exact strContains_interp _ _ _

lemma bmiSection_len (e : LogEntry) : (bmiSection e).length ≤ 1 := by
  unfold bmiSection
  simp only []
  split
  · split
    · simp
    · split
      · simp
      · split <;> simp
  · simp

lemma sleepSection_len (o : Option JsNum) : (sleepSection o).length ≤ 1 := by
  unfold sleepSection
  split
  · simp
  · split
    · simp
    · split
      · simp
      · split <;> simp

lemma hrSection_len (o : Option JsNum) : (hrSection o).length ≤ 1 := by
  unfold hrSection
  simp only []
  split
  · simp
  · split
    · simp
    · split <;> simp

lemma cycleSection_len (e : LogEntry) : (cycleSection e).length ≤ 2 := by
  unfold cycleSection
  split
  · split <;> simp
  · simp

lemma consSection_len (l : List LogEntry) : (consSection l).length ≤ 1 := by
  unfold consSection
  split <;> simp

/-- The cycle block is empty, the lone tracking tip, or tracking tip followed
by the length warning — in that order. -/
lemma cycleSection_structure (e : LogEntry) :
    cycleSection e = [] ∨ cycleSection e = [cycleTrackTip] ∨
      cycleSection e = [cycleTrackTip, cycleLenTip e.cycleLength] := by
  unfold cycleSection
  split
  · split
    · right; right; rfl
    · right; left; rfl
  · left; rfl

lemma map_sub_single (xs : List Tip) (c : Cat) (hlen : xs.length ≤ 1)
    (hcat : ∀ t ∈ xs, tipCat t = c) : List.Sublist (xs.map tipCat) [c] := by
  cases xs with
  | nil => simp
  | cons t ts =>
    cases ts with
    | nil => simp [hcat t (by simp)]
    | cons a b => simp at hlen

/-- The category word of the output is always a sublist of the fixed emission
order: BMI, sleep, heart rate, cycle tracking, cycle length, consistency. -/
lemma gpt_cats_sub (l : List LogEntry) :
    List.Sublist ((generatePersonalTips l).map tipCat)
      [Cat.bmi, Cat.sleep, Cat.heart, Cat.cycleTrack, Cat.cycleLen, Cat.cons] := by
  by_cases h : l = []
  · subst h
    simp [generatePersonalTips]
  · rw [gpt_eq l h]
    simp only [List.map_append]
    have hb := map_sub_single _ Cat.bmi (bmiSection_len (lastEntry l)) (bmiSection_cats _)
    have hs := map_sub_single _ Cat.sleep (sleepSection_len (avgSleepOf l)) (sleepSection_cats _)
    have hh := map_sub_single _ Cat.heart (hrSection_len (avgHROf l)) (hrSection_cats _)
    have hk := map_sub_single _ Cat.cons (consSection_len l) (consSection_cats _)
    have hc : List.Sublist ((cycleSection (lastEntry l)).map tipCat)
        [Cat.cycleTrack, Cat.cycleLen] := by
      rcases cycleSection_structure (lastEntry l) with hcs | hcs | hcs <;> rw [hcs]
      · simp
      · simp only [List.map_cons, List.map_nil, tipCat_cycleTrackTip]
        exact List.Sublist.cons₂ _ (List.nil_sublist _)
      · simp only [List.map_cons, List.map_nil, tipCat_cycleTrackTip, tipCat_cycleLenTip]
        exact List.Sublist.refl _
    have hfinal := (((hb.append hs).append hh).append hc).append hk
    simpa using hfinal

/-- Every emitted tip carries one of the four documented type strings. -/
lemma gpt_types (l : List LogEntry) :
    ∀ t ∈ generatePersonalTips l, typeOkB t = true := by
  by_cases h : l = []
  · subst h; intro t ht; simp [generatePersonalTips] at ht
  · rw [gpt_eq l h]
    intro t ht
    simp only [List.append_assoc, List.mem_append] at ht
    rcases ht with ht | ht | ht | ht | ht
    · exact bmiSection_types _ t ht
    · exact sleepSection_types _ t ht
    · exact hrSection_types _ t ht
    · exact cycleSection_types _ t ht
    · exact consSection_types _ t ht

/-- An entry with only a malformed (non-numeric string) `sleepHours`. -/
def badSleepEntry : LogEntry := ⟨.undefined, .str "oops", .undefined, .undefined, .undefined⟩

/-- An entry whose `sleepHours` is the present number 0. -/
def zeroSleepEntry : LogEntry := ⟨.undefined, .num 0, .undefined, .undefined, .undefined⟩

/-- An entry whose `bmi` is the present number 0. -/
def zeroBmiEntry : LogEntry := ⟨.num 0, .undefined, .undefined, .undefined, .undefined⟩

/-- An entry with `bmi = 18.5`, the lower boundary of the good bucket. -/
def bmiBoundaryEntry : LogEntry := ⟨.num 18.5, .undefined, .undefined, .undefined, .undefined⟩

/-- An entry with `heartRate = 59.6`. -/
def hrRoundEntry : LogEntry := ⟨.undefined, .undefined, .num 59.6, .undefined, .undefined⟩

/-- An entry with cycle tracking on and `cycleLength = 40`. -/
def cycle40Entry : LogEntry := ⟨.undefined, .undefined, .undefined, .boolean true, .num 40⟩

/-- An entry with cycle tracking on and the present `cycleLength` 0. -/
def cycleZeroEntry : LogEntry := ⟨.undefined, .undefined, .undefined, .boolean true, .num 0⟩

/-- Three entries recording 5, 7 and 9 hours of sleep. -/
def sleepLog579 : List LogEntry :=
  [⟨.undefined, .num 5, .undefined, .undefined, .undefined⟩,
   ⟨.undefined, .num 7, .undefined, .undefined, .undefined⟩,
   ⟨.undefined, .num 9, .undefined, .undefined, .undefined⟩]

/-- Three otherwise-empty entries (for the consistency threshold). -/
def plainLog3 : List LogEntry := [defaultEntry, defaultEntry, defaultEntry]

/-- A one-entry log with `bmi = 27` (for the determinism witness). -/
def bmiLog27 : List LogEntry := [⟨.num 27, .undefined, .undefined, .undefined, .undefined⟩]

@[simp] lemma jsValueToString_num (q : Rat) : jsValueToString (JsValue.num q) = ratToString q := rfl

/-- C7: the empty log yields the empty tip sequence, with no error:
deriveTips([]) == []. -/
theorem empty_log_empty_tips : generatePersonalTips [] = [] := rfl

/-- C9: deriveTips is deterministic and referentially transparent — on
value-identical input sequences the outputs are identical (hence element-wise
equal); the result depends on nothing but the argument, the function being a
pure function of it. -/
theorem deriveTips_deterministic (l1 l2 : List LogEntry) (h : l1 = l2) :
    generatePersonalTips l1 = generatePersonalTips l2 := by rw [h]

theorem deriveTips_deterministic_witness :
    generatePersonalTips bmiLog27 = generatePersonalTips bmiLog27 :=
  deriveTips_deterministic bmiLog27 bmiLog27 rfl

/-- C8: the emitted tips always appear in the fixed category order BMI,
sleep, heart rate, cycle tracking, cycle length, consistency, with unmet
categories omitted: the category word of the output is a sublist of that
fixed six-element order (hence no sorting, deduplication or reordering). -/
theorem tips_fixed_category_order (l : List LogEntry) :
    List.Sublist ((generatePersonalTips l).map tipCat)
      [Cat.bmi, Cat.sleep, Cat.heart, Cat.cycleTrack, Cat.cycleLen, Cat.cons] :=
  gpt_cats_sub l

/-- C10: every output has at most 6 tips — at most one each from the BMI,
sleep, heart-rate and consistency categories and at most two from the cycle
category — and every tip type is one of good, warning, alert, info. -/
theorem tips_bounded_and_typed (l : List LogEntry) :
    (generatePersonalTips l).length ≤ 6 ∧
    (generatePersonalTips l).all typeOkB = true ∧
    (generatePersonalTips l).countP (fun t => tipCat t == Cat.bmi) ≤ 1 ∧
    (generatePersonalTips l).countP (fun t => tipCat t == Cat.sleep) ≤ 1 ∧
    (generatePersonalTips l).countP (fun t => tipCat t == Cat.heart) ≤ 1 ∧
    (generatePersonalTips l).countP (fun t => tipCat t == Cat.cons) ≤ 1 ∧
    (generatePersonalTips l).countP isCycleTipB ≤ 2 := by
  have hsub := gpt_cats_sub l
  refine ⟨?_, List.all_eq_true.mpr (gpt_types l), ?_, ?_, ?_, ?_, ?_⟩
  · have hlen := hsub.length_le
    simpa using hlen
  · have hc := hsub.countP_le (fun c => c == Cat.bmi)
    simpa [List.countP_map, Function.comp] using hc
  · have hc := hsub.countP_le (fun c => c == Cat.sleep)
    simpa [List.countP_map, Function.comp] using hc
  · have hc := hsub.countP_le (fun c => c == Cat.heart)
    simpa [List.countP_map, Function.comp] using hc
  · have hc := hsub.countP_le (fun c => c == Cat.cons)
    simpa [List.countP_map, Function.comp] using hc
  · have hc := hsub.countP_le (fun c => c == Cat.cycleTrack || c == Cat.cycleLen)
    simpa [List.countP_map, Function.comp, isCycleTipB] using hc

/-- C6: a consistency tip is emitted iff the log has at least 3 entries, and
then exactly one good-severity tip whose body embeds the exact entry count. -/
theorem consistency_tip_threshold (l : List LogEntry) :
    (l.length < 3 → (generatePersonalTips l).filter isConsTipB = []) ∧
    (3 ≤ l.length →
      (generatePersonalTips l).filter isConsTipB = [streakTip l.length] ∧
      (streakTip l.length).type = "good" ∧
      strContains (streakTip l.length).body (toString l.length) = true) := by
  constructor
  · intro h
    rw [filter_gpt_cons]
    unfold consSection
    rw [if_neg (by omega)]
  · intro h
    refine ⟨?_, rfl, ?_⟩
    · rw [filter_gpt_cons]
      unfold consSection
      rw [if_pos h]
    · simp only [streakTip]
      exact strContains_interp _ _ _

theorem consistency_tip_threshold_witness :
    (generatePersonalTips plainLog3).filter isConsTipB = [streakTip 3] ∧
    (streakTip 3).type = "good" ∧
    strContains (streakTip 3).body (toString 3) = true :=
  (consistency_tip_threshold plainLog3).2 (by decide)

/-- C2 (amended): avgSleep is the arithmetic mean of sleepHours over exactly
the entries where the field is truthy — present, numeric and nonzero — and
null when there are none (an entry with the present value 0 is skipped); a
sleep tip is emitted iff avgSleep is not null, bucketed with severity alert
below 6, warning on [6,7), good on [7,9], warning above 9, the body embedding
avgSleep rounded to 1 decimal place. -/
theorem sleep_average_over_truthy (l : List LogEntry) (hne : l ≠ [])
    (hwf : ∀ e ∈ l, numericOrAbsent e.sleepHours = true) :
    (truthySleepVals l = [] → (generatePersonalTips l).filter isSleepTipB = []) ∧
    (truthySleepVals l ≠ [] →
      ∃ t, (generatePersonalTips l).filter isSleepTipB = [t] ∧
        t.type = (if (truthySleepVals l).sum / ((truthySleepVals l).length : Rat) < 6
            then "alert"
          else if (truthySleepVals l).sum / ((truthySleepVals l).length : Rat) < 7
            then "warning"
          else if (truthySleepVals l).sum / ((truthySleepVals l).length : Rat) ≤ 9
            then "good" else "warning") ∧
        strContains t.body
          (toFixed1 (JsNum.val
            ((truthySleepVals l).sum / ((truthySleepVals l).length : Rat)))) = true) := by
  have havg := avgSleepOf_wf l hwf
  constructor
  · intro hv
    rw [filter_gpt_sleep l hne, havg, if_pos hv]
    rfl
  · intro hv
    rw [filter_gpt_sleep l hne, havg, if_neg hv]
    exact sleepSection_val _

theorem sleep_average_over_truthy_witness :
    ∃ t, (generatePersonalTips sleepLog579).filter isSleepTipB = [t] ∧
      t.type = "good" ∧ strContains t.body "7.0" = true := by
  have havg : (truthySleepVals sleepLog579).sum
      / ((truthySleepVals sleepLog579).length : Rat) = 7 :=
    of_decide_eq_true (by with_unfolding_all rfl)
  have hv : truthySleepVals sleepLog579 ≠ [] :=
    of_decide_eq_true (by with_unfolding_all rfl)
  obtain ⟨t, h1, h2, h3⟩ :=
    (sleep_average_over_truthy sleepLog579 (by decide) (by decide)).2 hv
  rw [havg] at h2 h3
  norm_num at h2
  have hts : toFixed1 (JsNum.val 7) = "7.0" :=
    of_decide_eq_true (by with_unfolding_all rfl)
  rw [hts] at h3
  exact ⟨t, h1, h2, h3⟩

/-- C2 counterexample: in the one-entry log whose sleepHours is the present
number 0, the claim demands avgSleep = 0 and hence an alert sleep tip, but
the engine (treating the falsy 0 as absent) emits no tip at all. -/
theorem sleep_zero_counterexample :
    (lastEntry [zeroSleepEntry]).sleepHours = JsValue.num 0 ∧
    generatePersonalTips [zeroSleepEntry] = [] := ⟨rfl, rfl⟩

/-- C3 (amended): a BMI tip is emitted iff the bmi of the latest entry is truthy
(present, nonzero, non-empty) and not the sentinel "--" — a present bmi of 0
is skipped; on a nonzero numeric bmi exactly one tip from the four buckets
with exact boundaries 18.5, 25, 30 is emitted, the body embedding the value
as supplied with no rounding. -/
theorem bmi_gate_and_buckets (l : List LogEntry) (hne : l ≠ []) :
    ((truthy (lastEntry l).bmi = false ∨ (lastEntry l).bmi = JsValue.str "--") →
      (generatePersonalTips l).filter isBmiTipB = []) ∧
    (∀ q : Rat, (lastEntry l).bmi = JsValue.num q → q ≠ 0 →
      ∃ t, (generatePersonalTips l).filter isBmiTipB = [t] ∧
        t.type = (if q < 18.5 then "warning" else if q < 25 then "good"
          else if q < 30 then "warning" else "alert") ∧
        strContains t.body (ratToString q) = true) := by
  constructor
  · intro h
    rw [filter_gpt_bmi l hne]
    exact bmiSection_none _ h
  · intro q hb hq
    rw [filter_gpt_bmi l hne]
    exact bmiSection_val _ q hb hq

theorem bmi_gate_and_buckets_witness :
    ∃ t, (generatePersonalTips [bmiBoundaryEntry]).filter isBmiTipB = [t] ∧
      t.type = "good" ∧ strContains t.body (ratToString 18.5) = true := by
  obtain ⟨t, h1, h2, h3⟩ :=
    (bmi_gate_and_buckets [bmiBoundaryEntry] (by decide)).2 18.5 rfl (by norm_num)
  norm_num at h2
  exact ⟨t, h1, h2, h3⟩

/-- C3 counterexample: in the one-entry log whose bmi is the present number 0
(not the "no value" sentinel), the claim demands an underweight warning tip,
but the engine (0 being falsy) emits no tip at all. -/
theorem bmi_zero_counterexample :
    (lastEntry [zeroBmiEntry]).bmi = JsValue.num 0 ∧
    generatePersonalTips [zeroBmiEntry] = [] := ⟨rfl, rfl⟩

/-- C1 (amended): no error is ever raised (the engine is a total function),
but a present truthy field that fails numeric coercion is NOT treated as
absent: it poisons the aggregate with NaN, every threshold comparison on NaN
is false, and the final else-bucket of the category fires — for sleepHours, a
warning "Oversleep Warning!" tip with "NaN" embedded in the body. -/
theorem malformed_numeric_not_absent (l : List LogEntry) (e : LogEntry) (he : e ∈ l)
    (ht : truthy e.sleepHours = true) (hp : parseFloatVal e.sleepHours = JsNum.nan) :
    ∃ t, (generatePersonalTips l).filter isSleepTipB = [t] ∧
      t.type = "warning" ∧ t.title = "Oversleep Warning!" ∧
      strContains t.body "NaN" = true := by
  have hne : l ≠ [] := List.ne_nil_of_mem he
  rw [filter_gpt_sleep l hne, avgSleepOf_bad l e he ht hp]
  refine ⟨sleepOverTip JsNum.nan, rfl, rfl, rfl, ?_⟩
  simp only [sleepOverTip, toFixed1_nan]
  exact strContains_interp _ _ _

theorem malformed_numeric_not_absent_witness :
    ∃ t, (generatePersonalTips [badSleepEntry]).filter isSleepTipB = [t] ∧
      t.type = "warning" ∧ t.title = "Oversleep Warning!" ∧
      strContains t.body "NaN" = true :=
  malformed_numeric_not_absent [badSleepEntry] badSleepEntry (by decide) (by decide)
    (by decide)

/-- C1 counterexample: on the one-entry log whose sleepHours is the
non-numeric string "oops", the claim demands the sleep category be skipped
(no tips at all remain), but the engine emits exactly one tip — the
oversleep warning. -/
theorem malformed_numeric_counterexample :
    (generatePersonalTips [badSleepEntry]).map Tip.title = ["Oversleep Warning!"] := by
  decide

/-- C4: whenever avgHeartRate is not null (under data-model-conforming
heartRate fields), the heart-rate tip is obtained by first rounding the
average to the nearest integer and then bucketing the rounded value —
below 60 info, 60 to 100 inclusive good, above 100 alert — with the rounded
value embedded in the body. -/
theorem heart_rate_round_then_bucket (l : List LogEntry) (hne : l ≠ [])
    (hwf : ∀ e ∈ l, numericOrAbsent e.heartRate = true) :
    (truthyHRVals l = [] → (generatePersonalTips l).filter isHeartTipB = []) ∧
    (truthyHRVals l ≠ [] →
      ∃ t, (generatePersonalTips l).filter isHeartTipB = [t] ∧
        t.type
          = (if Rat.floor ((truthyHRVals l).sum / ((truthyHRVals l).length : Rat) + 1/2) < 60
              then "info"
            else if Rat.floor ((truthyHRVals l).sum / ((truthyHRVals l).length : Rat) + 1/2) ≤ 100
              then "good" else "alert") ∧
        strContains t.body
          (ratToString
            ((Rat.floor ((truthyHRVals l).sum / ((truthyHRVals l).length : Rat) + 1/2) : Int)
              : Rat)) = true) := by
  have havg := avgHROf_wf l hwf
  constructor
  · intro hv
    rw [filter_gpt_hr l hne, havg, if_pos hv]
    rfl
  · intro hv
    rw [filter_gpt_hr l hne, havg, if_neg hv]
    exact hrSection_val _

theorem heart_rate_round_then_bucket_witness :
    ∃ t, (generatePersonalTips [hrRoundEntry]).filter isHeartTipB = [t] ∧
      t.type = "good" ∧ strContains t.body (ratToString 60) = true := by
  have havg : (truthyHRVals [hrRoundEntry]).sum
      / ((truthyHRVals [hrRoundEntry]).length : Rat) = 59.6 :=
    of_decide_eq_true (by with_unfolding_all rfl)
  have hv : truthyHRVals [hrRoundEntry] ≠ [] :=
    of_decide_eq_true (by with_unfolding_all rfl)
  obtain ⟨t, h1, h2, h3⟩ :=
    (heart_rate_round_then_bucket [hrRoundEntry] (by decide) (by decide)).2 hv
  rw [havg] at h2 h3
  have hfl : Rat.floor ((59.6 : Rat) + 1/2) = 60 :=
    of_decide_eq_true (by with_unfolding_all rfl)
  rw [hfl] at h2 h3
  norm_num at h2
  have hcast : (((60 : Int)) : Rat) = (60 : Rat) := by norm_num
  rw [hcast] at h3
  exact ⟨t, h1, h2, h3⟩

/-- C5 (amended): if the cycleTracking of the latest entry is truthy, exactly one
info tracking tip is emitted, followed by a warning tip referencing the exact
cycleLength value iff cycleLength is truthy (present and nonzero) and below
21 or above 35 — the present value 0, though below 21, yields no warning; if
cycleTracking is not truthy, no cycle tip is emitted. -/
theorem cycle_tips_emission (l : List LogEntry) (hne : l ≠ [])
    (hnum : numericOrAbsent (lastEntry l).cycleLength = true) :
    (truthy (lastEntry l).cycleTracking = false →
      (generatePersonalTips l).filter isCycleTipB = []) ∧
    (truthy (lastEntry l).cycleTracking = true →
      cycleTrackTip.type = "info" ∧
      (∀ q : Rat, (lastEntry l).cycleLength = JsValue.num q → q ≠ 0 → (q < 21 ∨ 35 < q) →
        (generatePersonalTips l).filter isCycleTipB
          = [cycleTrackTip, cycleLenTip (JsValue.num q)] ∧
        (cycleLenTip (JsValue.num q)).type = "warning" ∧
        strContains (cycleLenTip (JsValue.num q)).body (ratToString q) = true) ∧
      ((∀ q : Rat, (lastEntry l).cycleLength = JsValue.num q → q = 0 ∨ (21 ≤ q ∧ q ≤ 35)) →
        (generatePersonalTips l).filter isCycleTipB = [cycleTrackTip])) := by
  constructor
  · intro h
    rw [filter_gpt_cycle l hne]
    simp [cycleSection, h]
  · intro hct
    refine ⟨rfl, ?_, ?_⟩
    · intro q hb hq hrange
      refine ⟨?_, rfl, ?_⟩
      · rw [filter_gpt_cycle l hne]
        unfold cycleSection
        rw [hct, hb]
        rcases hrange with hlt | hgt
        · simp [truthy, hq, jsValLtB, toNumber, JsNum.ltB, hlt]
        · simp [truthy, hq, jsValLtB, jsValGtB, toNumber, JsNum.ltB, JsNum.gtB, hgt]
      · simp only [cycleLenTip, jsValueToString_num]
        exact strContains_interp _ _ _
    · intro hall
      rw [filter_gpt_cycle l hne]
      unfold cycleSection
      rw [hct]
      cases hcl : (lastEntry l).cycleLength with
      | undefined => simp [truthy]
      | num q =>
        rcases hall q hcl with hq0 | hin
        · subst hq0; simp [truthy]
        · simp [truthy, jsValLtB, jsValGtB, toNumber, JsNum.ltB, JsNum.gtB,
            not_lt.mpr hin.1, not_lt.mpr hin.2]
      | str v => rw [hcl] at hnum; simp [numericOrAbsent] at hnum
      | boolean b => rw [hcl] at hnum; simp [numericOrAbsent] at hnum

theorem cycle_tips_emission_witness :
    (generatePersonalTips [cycle40Entry]).filter isCycleTipB
      = [cycleTrackTip, cycleLenTip (JsValue.num 40)] ∧
    (cycleLenTip (JsValue.num 40)).type = "warning" ∧
    strContains (cycleLenTip (JsValue.num 40)).body (ratToString 40) = true :=
  ((cycle_tips_emission [cycle40Entry] (by decide) (by decide)).2 (by decide)).2.1
    40 rfl (by norm_num) (Or.inr (by norm_num))

/-- C5 counterexample: with cycleTracking true and the present cycleLength 0
(which is below 21), the claim demands two cycle tips, but the engine (0
being falsy) emits only the tracking tip. -/
theorem cycle_zero_counterexample :
    (lastEntry [cycleZeroEntry]).cycleTracking = JsValue.boolean true ∧
    (lastEntry [cycleZeroEntry]).cycleLength = JsValue.num 0 ∧
    (generatePersonalTips [cycleZeroEntry]).map Tip.title = ["Cycle Tracking Active!"] := by
  refine ⟨rfl, rfl, ?_⟩
  decide
